import Mathlib

/-!
Verification development for the Naan Kavithai front-end scripts.

The repository stores its durable state in an external document database.
We embed the database state that each operation touches as a Lean structure
and each operation (the body of the corresponding JavaScript function) as a
pure function on that state.  JavaScript numbers are modelled as rationals;
the one place where the scripts can divide by zero is modelled with an
explicit value type `JNum` mirroring IEEE special values, since in
JavaScript `x / 0` is `Infinity`, `-Infinity` or `NaN`, never an exception.

Several revisions of `comments.js` are present in the sources
(`src/comments.js` holds two revisions, `src/unnamed/part_000` and
`src/unnamed/part_001` two more).  Where the revisions differ we model each
one separately: suffix `V1` is the first revision of `src/comments.js`,
`V2` its second revision, `P0` is `src/unnamed/part_000` and `P1` is
`src/unnamed/part_001`.
-/

namespace Naankavithai

/-- Result of a JavaScript arithmetic expression: a finite number or one of
the IEEE special values produced by division by zero. -/
inductive JNum where
  | num (q : ℚ)
  | nan
  | inf
  | ninf
deriving DecidableEq

/-- JavaScript division: for a nonzero divisor the exact quotient (the
scripts' claims only compare a stored quotient with the same quotient, so
modelling floats as rationals is faithful for the stated equalities); for a
zero divisor the IEEE special values `Infinity`, `-Infinity` or `NaN`. -/
def jsDiv (a b : ℚ) : JNum :=
  if b ≠ 0 then .num (a / b)
  else if 0 < a then .inf
  else if a < 0 then .ninf
  else .nan

/-- Errors raised inside the scripts' `async` bodies. -/
inductive JsErr where
  /-- an explicit `throw` of the poem-missing message -/
  | thrownPoemMissing
  /-- a `TypeError` from reading a property of `undefined` -/
  | typeError
  /-- a `ReferenceError` from an unresolved identifier (an assignment to an
  undeclared name in strict mode, or a reference to a name that the module
  never imported or declared) -/
  | refError
deriving DecidableEq

/-! ### Strict-mode variable environment

The rating transaction of the first `comments.js` revision and of
`part_000` assigns to the identifiers `newSumRatings` and
`newTotalRatings`, which are declared nowhere in the module.  ES modules
run in strict mode, where an assignment to an undeclared identifier raises
a `ReferenceError` instead of creating a global.  To derive this from a
generic rule rather than hard-code it, those two transaction bodies are
embedded over an explicit variable environment: local declarations
(`let`/`const` and parameters) populate the environment, and assignment or
reading checks for a declaration. -/

/-- The local identifiers appearing in the rating-transaction bodies. -/
inductive VarName where
  | ratingValue
  | newAvgRating
  | oldRating
  | totalRatings
  | sumRatings
  | newSumRatings
  | newTotalRatings
deriving DecidableEq

/-- A variable environment: the declared identifiers with their values. -/
abbrev Env := List (VarName × ℚ)

/-- Look up a declared identifier. -/
def lookupVar : Env → VarName → Option ℚ
  | [], _ => none
  | (y, v) :: rest, x => if y = x then some v else lookupVar rest x

/-- Strict-mode assignment: succeeds only for a declared identifier;
assigning an undeclared identifier raises `ReferenceError`. -/
def strictAssign (env : Env) (x : VarName) (v : ℚ) : Except JsErr Env :=
  match lookupVar env x with
  | some _ => .ok ((x, v) :: env)
  | none => .error .refError

/-- Reading an identifier: an undeclared identifier raises
`ReferenceError`. -/
def strictRead (env : Env) (x : VarName) : Except JsErr ℚ :=
  match lookupVar env x with
  | some v => .ok v
  | none => .error .refError

/-! ### Rating data model

A `ratePoem` transaction touches two documents: the poem document
`kavithai/{poemId}` (fields `sumRatings`, `totalRatings`, `averageRating`)
and the caller's rating document `ratings/{poemId}_{userId}` (field
`rating`).  `none` models a missing document.

In the Firestore modular SDK a snapshot's `exists` is a method; every
revision calls `poemDoc.exists()` but reads `currentRatingDoc.exists`
without parentheses, a truthy method reference, so the code always goes on
to read `currentRatingDoc.data().rating`.  When the rating document is
missing, `data()` is `undefined` and the property read raises a
`TypeError`, so a transaction only completes when the caller already has a
rating document. -/

/-- The aggregate rating fields of a poem document. -/
structure PoemFields where
  sumRatings : ℚ
  totalRatings : ℚ
  averageRating : JNum
deriving DecidableEq

/-- The documents read and written by one `ratePoem` transaction. -/
structure RateDb where
  poem : Option PoemFields
  userRating : Option ℚ
deriving DecidableEq

/-- Final statements of the transaction body shared by the first
`comments.js` revision and `part_000`: the ternary
`newTotalRatings > 0 ? newSumRatings / newTotalRatings : 0` followed by
`transaction.update(poemRef, ...)`, reading the two identifiers from the
environment (unreachable in practice because the preceding assignments
already raised). -/
def finishStrictTxn (env : Env) (db : RateDb) : Except JsErr RateDb :=
  match strictRead env .newTotalRatings with
  | .error e => .error e
  | .ok nT =>
    match strictRead env .newSumRatings with
    | .error e => .error e
    | .ok nS =>
      .ok { db with
            poem := some ⟨nS, nT, if 0 < nT then .num (nS / nT) else .num 0⟩ }

/-- Transaction body of `ratePoem` in the first revision of
`src/comments.js` (lines 104-131).  In scope at the branch point:
the parameter `ratingValue`, the function-level `let newAvgRating = 0`,
`const oldRating`, and `totalRatings`/`sumRatings` from the destructuring
`let`.  `newSumRatings` and `newTotalRatings` are never declared. -/
def ratePoemTxnV1 (ratingValue : ℚ) (db : RateDb) : Except JsErr RateDb :=
  match db.poem with
  | none => .error .thrownPoemMissing
  | some p =>
    match db.userRating with
    | none => .error .typeError
    | some oldRating =>
      let env : Env := [(.ratingValue, ratingValue), (.newAvgRating, 0),
        (.oldRating, oldRating), (.totalRatings, p.totalRatings),
        (.sumRatings, p.sumRatings)]
      if oldRating = ratingValue then
        match strictAssign env .newSumRatings (p.sumRatings - ratingValue) with
        | .error e => .error e
        | .ok env =>
          match strictAssign env .newTotalRatings (p.totalRatings - 1) with
          | .error e => .error e
          | .ok env =>
            match strictAssign env .ratingValue 0 with
            | .error e => .error e
            | .ok env => finishStrictTxn env { db with userRating := none }
      else
        match strictAssign env .newSumRatings
          (p.sumRatings - oldRating + ratingValue) with
        | .error e => .error e
        | .ok env =>
          match (if oldRating = 0 then
              strictAssign env .newTotalRatings (p.totalRatings + 1)
            else
              strictAssign env .newTotalRatings p.totalRatings) with
          | .error e => .error e
          | .ok env =>
            finishStrictTxn env { db with userRating := some ratingValue }

/-- Transaction body of `ratePoem` in `src/unnamed/part_000`
(lines 91-117): identical to the first `src/comments.js` revision except
that there is no function-level `newAvgRating` declaration and the unvote
branch does not reassign `ratingValue`. -/
def ratePoemTxnP0 (ratingValue : ℚ) (db : RateDb) : Except JsErr RateDb :=
  match db.poem with
  | none => .error .thrownPoemMissing
  | some p =>
    match db.userRating with
    | none => .error .typeError
    | some oldRating =>
      let env : Env := [(.ratingValue, ratingValue), (.oldRating, oldRating),
        (.totalRatings, p.totalRatings), (.sumRatings, p.sumRatings)]
      if oldRating = ratingValue then
        match strictAssign env .newSumRatings (p.sumRatings - ratingValue) with
        | .error e => .error e
        | .ok env =>
          match strictAssign env .newTotalRatings (p.totalRatings - 1) with
          | .error e => .error e
          | .ok env => finishStrictTxn env { db with userRating := none }
      else
        match strictAssign env .newSumRatings
          (p.sumRatings - oldRating + ratingValue) with
        | .error e => .error e
        | .ok env =>
          match (if oldRating = 0 then
              strictAssign env .newTotalRatings (p.totalRatings + 1)
            else
              strictAssign env .newTotalRatings p.totalRatings) with
          | .error e => .error e
          | .ok env =>
            finishStrictTxn env { db with userRating := some ratingValue }

/-- Transaction body of `ratePoem` in the second revision of
`src/comments.js` (lines 266-299).  All locals are declared with
`let`/`const`.  There is no unvote branch, and the average is the
unguarded `newSumRatings / newTotalRatings`, modelled with `jsDiv`. -/
def ratePoemTxnV2 (ratingValue : ℚ) (db : RateDb) : Except JsErr RateDb :=
  match db.poem with
  | none => .error .thrownPoemMissing
  | some p =>
    match db.userRating with
    | none => .error .typeError
    | some oldRating =>
      let totalRatings := p.totalRatings
      let sumRatings := p.sumRatings
      let newTotalRatings :=
        if oldRating = 0 then totalRatings + 1 else totalRatings
      let newSumRatings := sumRatings - oldRating + ratingValue
      let newAvgRating := jsDiv newSumRatings newTotalRatings
      .ok { poem := some ⟨newSumRatings, newTotalRatings, newAvgRating⟩,
            userRating := some ratingValue }

/-- Transaction body of `ratePoem` in `src/unnamed/part_001`
(lines 135-178).  All locals are declared; the unvote branch deletes the
rating document; the average is guarded by `newTotalRatings > 0`. -/
def ratePoemTxnP1 (ratingValue : ℚ) (db : RateDb) : Except JsErr RateDb :=
  match db.poem with
  | none => .error .thrownPoemMissing
  | some p =>
    match db.userRating with
    | none => .error .typeError
    | some oldRating =>
      let totalRatings := p.totalRatings
      let sumRatings := p.sumRatings
      if oldRating = ratingValue then
        let newSumRatings := sumRatings - ratingValue
        let newTotalRatings := totalRatings - 1
        let newAvgRating : JNum :=
          if 0 < newTotalRatings then .num (newSumRatings / newTotalRatings)
          else .num 0
        .ok { poem := some ⟨newSumRatings, newTotalRatings, newAvgRating⟩,
              userRating := none }
      else
        let newTotalRatings :=
          if oldRating = 0 then totalRatings + 1 else totalRatings
        let newSumRatings := sumRatings - oldRating + ratingValue
        let newAvgRating : JNum :=
          if 0 < newTotalRatings then .num (newSumRatings / newTotalRatings)
          else .num 0
        .ok { poem := some ⟨newSumRatings, newTotalRatings, newAvgRating⟩,
              userRating := some ratingValue }

/-- The invariant the spec states for a poem document's aggregate fields:
`averageRating = sumRatings / totalRatings` when `totalRatings > 0`, and
the default `0` when `totalRatings = 0`. -/
def avgInvariant (p : PoemFields) : Prop :=
  (0 < p.totalRatings →
    p.averageRating = .num (p.sumRatings / p.totalRatings)) ∧
  (p.totalRatings = 0 → p.averageRating = .num 0)

/-! ### JavaScript `String.prototype.includes` -/

/-- `leadsChars needle hay` : `hay` starts with `needle`. -/
def leadsChars : List Char → List Char → Bool
  | [], _ => true
  | _ :: _, [] => false
  | c :: cs, d :: ds => c == d && leadsChars cs ds

/-- `occursChars needle hay` : `needle` occurs contiguously in `hay`. -/
def occursChars (needle : List Char) : List Char → Bool
  | [] => leadsChars needle []
  | d :: t => leadsChars needle (d :: t) || occursChars needle t

/-- JavaScript `hay.includes(needle)`. -/
def strIncludes (hay needle : String) : Bool :=
  occursChars needle.data hay.data

/-- JavaScript `s.trim()`: strip leading and trailing whitespace. -/
def jsTrim (s : String) : String :=
  ⟨((s.data.dropWhile Char.isWhitespace).reverse.dropWhile
      Char.isWhitespace).reverse⟩

/-! ### Module-scope name resolution

No revision of `comments.js` and no revision of `community.js` imports
`updateDoc` from the database SDK, yet both call it.  In an ES module a
reference to a name that is neither imported, declared, nor a global
raises `ReferenceError`.  The binding lists below are copied from the
top of the respective files. -/

/-- The names imported by every revision of `src/comments.js`,
`src/unnamed/part_000` and `src/unnamed/part_001` (`getDoc` is imported
under the alias `getFirestoreDoc`). -/
def commentsJsImports : List String :=
  ["collection", "addDoc", "serverTimestamp", "query", "where", "orderBy",
   "getDocs", "doc", "setDoc", "runTransaction", "increment", "deleteDoc",
   "getFirestoreDoc"]

/-- The names imported by `src/community.js`. -/
def communityJsImports : List String :=
  ["collection", "query", "where", "getDocs", "doc", "setDoc", "deleteDoc",
   "serverTimestamp", "increment", "orderBy", "limit", "getDoc"]

/-- Resolving an identifier against a module's bindings. -/
def resolveName (bindings : List String) (x : String) : Except JsErr Unit :=
  if bindings.contains x then .ok () else .error .refError

/-! ### Operation outcomes

Each public operation is modelled as a function from the caller
(`auth.currentUser`, `none` when signed out), its arguments, and the
relevant database state to an `Outcome`: the new state, the list of
database effects issued (reads and writes, in order), and the toast
notification shown. -/

/-- One database effect issued by an operation. -/
inductive DbEff where
  | readDoc (coll docId : String)
  | writeDoc (coll docId : String)
  | removeDoc (coll docId : String)
  | addTo (coll : String)
  | queryColl (coll : String)
  | txnCommit
deriving DecidableEq

/-- Result of one call of a public operation. -/
structure Outcome (σ : Type) where
  state : σ
  effects : List DbEff
  toast : Option String

/-! ### Toast messages (copied from the sources) -/

def saveLoginMsg : String := "கவிதையை வெளியிட, நீங்கள் உள்நுழைய வேண்டும்."

def commentLoginMsg : String := "கருத்து தெரிவிக்க உள்நுழையவும்."

def commentEmptyMsg : String := "கருத்து காலியாக இருக்கக் கூடாது."

def commentOkMsg : String := "கருத்து வெற்றிகரமாகப் பதியப்பட்டது!"

def rateLoginMsg : String := "மதிப்பீடு அளிக்க உள்நுழையவும்."

def rateOkMsg : String := "மதிப்பீடு வெற்றிகரமாகப் பதியப்பட்டது!"

/-- Stand-in for the rating-failure toast.  The source interpolates
`மதிப்பீடு தோல்வியடைந்தது: ` followed by the first 50 characters of the
engine-supplied error message, a text the program does not determine for
`TypeError` and `ReferenceError`; the model abbreviates the whole toast
to this fixed marker.  No theorem below depends on its content, only on
which branch produces a toast. -/
def rateFailMsg : String := "மதிப்பீடு தோல்வியடைந்தது."

def reactionLoginMsg : String := "ரியாக்ஷன் அளிக்க உள்நுழையவும்."

def reactionRemovedMsg : String := "ரியாக்ஷன் நீக்கப்பட்டது!"

def reactionOkMsg : String := "ரியாக்ஷன் வெற்றிகரமாகப் பதியப்பட்டது!"

def reactionFailMsg : String := "ரியாக்ஷன் தோல்வியடைந்தது."

def bookmarkLoginMsg : String := "சேமிக்க உள்நுழையவும்."

def bookmarkRemovedMsg : String := "கவிதை சேமித்தவற்றிலிருந்து நீக்கப்பட்டது."

def bookmarkSavedMsg : String := "கவிதை வெற்றிகரமாகச் சேமிக்கப்பட்டது!"

def followLoginMsg : String := "தொடர உள்நுழையவும்."

def followSelfMsg : String := "உங்களை நீங்களே தொடர முடியாது!"

def followErrMsg : String := "பின்தொடர்வதில் பிழை ஏற்பட்டது. (அனுமதி சிக்கல்)"

/-! ### comments.js: postComment (first revision, lines 33-50)

The function validates the user and the trimmed text, appends a document
to the `comments` collection, and reloads the comment list.  No revision
of `postComment` writes to the `users` collection: the author's
`commentCount` is untouched.  `incrementCommentCount` in
`src/gamification.js` would perform that write, but nothing in the
repository calls it. -/

/-- A document of the `comments` collection (fields used by the claims). -/
structure CommentDoc where
  poemId : String
  userId : String
  text : String
deriving DecidableEq

/-- The state `postComment` touches: the `comments` collection and the
calling user's `commentCount` field in `users`. -/
structure CommentsDb where
  comments : List CommentDoc
  commentCount : ℚ
deriving DecidableEq

/-- `postComment(poemId, commentText)` from the first revision of
`src/comments.js`. -/
def postComment (user : Option String) (poemId commentText : String)
    (s : CommentsDb) : Outcome CommentsDb :=
  let cleanedText := jsTrim commentText
  match user with
  | none => ⟨s, [], some commentLoginMsg⟩
  | some uid =>
    if cleanedText = "" then ⟨s, [], some commentEmptyMsg⟩
    else
      ⟨{ comments := s.comments ++ [⟨poemId, uid, cleanedText⟩],
         commentCount := s.commentCount },
       [.addTo "comments", .queryColl "comments"], some commentOkMsg⟩

/-- `incrementCommentCount(userId)` from `src/gamification.js`
(lines 352-368): adds one to `users/{userId}.commentCount` and re-reads
the user document for the achievement check.  Defined here to record its
effect; no caller exists in the repository. -/
def incrementCommentCount (userId : Option String) (s : CommentsDb) :
    Outcome CommentsDb :=
  match userId with
  | none => ⟨s, [], none⟩
  | some uid =>
    ⟨{ s with commentCount := s.commentCount + 1 },
     [.writeDoc "users" uid, .readDoc "users" uid], none⟩

/-! ### comments.js: ratePoem entry points -/

/-- `ratePoem(ratingValue, poemId)` of the first `src/comments.js`
revision: the signed-out guard, then the transaction
(`ratePoemTxnV1`); a failed transaction leaves the database unchanged. -/
def ratePoemV1 (user : Option String) (ratingValue : ℚ) (poemId : String)
    (db : RateDb) : Outcome RateDb :=
  match user with
  | none => ⟨db, [], some rateLoginMsg⟩
  | some uid =>
    let reads := [DbEff.readDoc "kavithai" poemId,
                  DbEff.readDoc "ratings" (poemId ++ "_" ++ uid)]
    match ratePoemTxnV1 ratingValue db with
    | .ok db' => ⟨db', reads ++ [DbEff.txnCommit], some rateOkMsg⟩
    | .error _ => ⟨db, reads, some rateFailMsg⟩

/-- `ratePoem(ratingValue, poemId)` of `src/unnamed/part_001`: the
signed-out guard, then the transaction (`ratePoemTxnP1`). -/
def ratePoemP1 (user : Option String) (ratingValue : ℚ) (poemId : String)
    (db : RateDb) : Outcome RateDb :=
  match user with
  | none => ⟨db, [], some rateLoginMsg⟩
  | some uid =>
    let reads := [DbEff.readDoc "kavithai" poemId,
                  DbEff.readDoc "ratings" (poemId ++ "_" ++ uid)]
    match ratePoemTxnP1 ratingValue db with
    | .ok db' => ⟨db', reads ++ [DbEff.txnCommit], some rateOkMsg⟩
    | .error _ => ⟨db, reads, some rateFailMsg⟩

/-! ### comments.js: handleReaction -/

/-- The state `handleReaction` touches for one (user, poem, type) triple:
whether the composite-id reaction document
`reactions/{poemId}_{userId}_{type}` exists, and the poem's `likes`
counter. -/
structure ReactionState where
  hasReaction : Bool
  likes : ℚ
deriving DecidableEq

/-- `handleReaction(reactionType, poemId)` of the first `src/comments.js`
revision (lines 151-184): reads the composite-id reaction document, then
either deletes it and decrements `likes`, or creates it and increments
`likes`.  The `likes` update calls `updateDoc`, which the module does
not bind, so after the delete/set completes the counter update raises
`ReferenceError` and is caught by the handler's `catch`. -/
def handleReactionV1 (user : Option String) (reactionType poemId : String)
    (s : ReactionState) : Outcome ReactionState :=
  match user with
  | none => ⟨s, [], some reactionLoginMsg⟩
  | some uid =>
    let rid := poemId ++ "_" ++ uid ++ "_" ++ reactionType
    if s.hasReaction then
      match resolveName commentsJsImports "updateDoc" with
      | .ok _ =>
        ⟨⟨false, s.likes - 1⟩,
         [.readDoc "reactions" rid, .removeDoc "reactions" rid,
          .writeDoc "kavithai" poemId], some reactionRemovedMsg⟩
      | .error _ =>
        ⟨⟨false, s.likes⟩,
         [.readDoc "reactions" rid, .removeDoc "reactions" rid],
         some reactionFailMsg⟩
    else
      match resolveName commentsJsImports "updateDoc" with
      | .ok _ =>
        ⟨⟨true, s.likes + 1⟩,
         [.readDoc "reactions" rid, .writeDoc "reactions" rid,
          .writeDoc "kavithai" poemId], some reactionOkMsg⟩
      | .error _ =>
        ⟨⟨true, s.likes⟩,
         [.readDoc "reactions" rid, .writeDoc "reactions" rid],
         some reactionFailMsg⟩

/-- `handleReaction(reactionType, poemId)` of `src/unnamed/part_000`
(lines 130-153): no reaction document at all, only
`updateDoc(poemRef, likes: increment(1))` — and `updateDoc` is not an
available binding, so the call raises `ReferenceError` before any
write. -/
def handleReactionP0 (user : Option String) (reactionType poemId : String)
    (s : ReactionState) : Outcome ReactionState :=
  match user with
  | none => ⟨s, [], some reactionLoginMsg⟩
  | some _ =>
    match resolveName commentsJsImports "updateDoc" with
    | .ok _ =>
      ⟨⟨s.hasReaction, s.likes + 1⟩, [.writeDoc "kavithai" poemId],
       some reactionOkMsg⟩
    | .error _ => ⟨s, [], some reactionFailMsg⟩

/-! ### comments.js: toggleBookmark -/

/-- Presence of the composite-id document `bookmarks/{userId}_{poemId}`. -/
structure BookmarkState where
  hasBookmark : Bool
deriving DecidableEq

/-- `toggleBookmark(poemId)` of the first `src/comments.js` revision
(lines 189-210). -/
def toggleBookmarkV1 (user : Option String) (poemId : String)
    (s : BookmarkState) : Outcome BookmarkState :=
  match user with
  | none => ⟨s, [], some bookmarkLoginMsg⟩
  | some uid =>
    let bid := uid ++ "_" ++ poemId
    if s.hasBookmark then
      ⟨⟨false⟩, [.readDoc "bookmarks" bid, .removeDoc "bookmarks" bid],
       some bookmarkRemovedMsg⟩
    else
      ⟨⟨true⟩, [.readDoc "bookmarks" bid, .writeDoc "bookmarks" bid],
       some bookmarkSavedMsg⟩

/-! ### community.js: toggleFollow -/

/-- The state `toggleFollow` touches for one (follower, target) pair:
presence of `followers/{followerId}_{followingId}` and the two users'
counters. -/
structure FollowState where
  hasFollow : Bool
  followingCount : ℚ
  followerCount : ℚ
deriving DecidableEq

/-- Unfollow toast, interpolating the target's name. -/
def unfollowMsg (n : String) : String :=
  n ++ " ஐப் பின்தொடர்வது நிறுத்தப்பட்டது."

/-- Follow toast, interpolating the target's name. -/
def followOkMsg (n : String) : String :=
  n ++ " ஐப் பின்தொடரத் தொடங்கினீர்கள்!"

/-- `toggleFollow(targetUserId, targetUserName)` of `src/community.js`
(lines 32-81).  The counter updates call `updateDoc`, which
`community.js` never imports, so after the delete/set the first counter
update raises `ReferenceError`, caught by the handler's `catch`. -/
def toggleFollow (user : Option String) (targetUserId targetUserName : String)
    (s : FollowState) : Outcome FollowState :=
  match user with
  | none => ⟨s, [], some followLoginMsg⟩
  | some uid =>
    if uid = targetUserId then ⟨s, [], some followSelfMsg⟩
    else
      let fid := uid ++ "_" ++ targetUserId
      if s.hasFollow then
        match resolveName communityJsImports "updateDoc" with
        | .ok _ =>
          ⟨⟨false, s.followingCount - 1, s.followerCount - 1⟩,
           [.readDoc "followers" fid, .removeDoc "followers" fid,
            .writeDoc "users" uid, .writeDoc "users" targetUserId],
           some (unfollowMsg targetUserName)⟩
        | .error _ =>
          ⟨⟨false, s.followingCount, s.followerCount⟩,
           [.readDoc "followers" fid, .removeDoc "followers" fid],
           some followErrMsg⟩
      else
        match resolveName communityJsImports "updateDoc" with
        | .ok _ =>
          ⟨⟨true, s.followingCount + 1, s.followerCount + 1⟩,
           [.readDoc "followers" fid, .writeDoc "followers" fid,
            .writeDoc "users" uid, .writeDoc "users" targetUserId],
           some (followOkMsg targetUserName)⟩
        | .error _ =>
          ⟨⟨true, s.followingCount, s.followerCount⟩,
           [.readDoc "followers" fid, .writeDoc "followers" fid],
           some followErrMsg⟩

/-! ### content.js: saveKavithaiToFirestore (first revision, lines 26-92) -/

/-- The state `saveKavithaiToFirestore` touches: the size of the
`kavithai` collection and the author's `postCount` in `users`. -/
structure ContentDb where
  kavithaiCount : ℚ
  postCount : ℚ
deriving DecidableEq

/-- The dedicated permission-denied toast of the first `content.js`
revision. -/
def permissionDeniedMsg : String :=
  "🚫 அனுமதி மறுக்கப்பட்டது! (Firestore Rules-ஐ சரிபார்க்கவும்)"

/-- The server-function toast of the first `content.js` revision. -/
def serverFunctionMsg : String := "பிழை: சர்வர் செயல்பாட்டில் சிக்கல்."

/-- The catch handler of `saveKavithaiToFirestore` (first `content.js`
revision, lines 76-91): substring matching on the error message. -/
def saveErrorMessage (errMsg : String) : String :=
  if strIncludes errMsg "permission denied" then permissionDeniedMsg
  else if strIncludes errMsg "Function call failed" then serverFunctionMsg
  else "சேமிப்பில் பிழை: " ++ errMsg.take 50 ++ "..."

/-- The success toast, depending on the `status` argument. -/
def saveOkMsg (status : String) : String :=
  if status = "Draft" then "கவிதை வெற்றிகரமாக வரைவாகச் சேமிக்கப்பட்டது!"
  else "கவிதை வெற்றிகரமாக சமர்ப்பிக்கப்பட்டது!"

/-- `saveKavithaiToFirestore(data, status)` of the first `content.js`
revision.  The `try` block performs two sequential vendor writes:
`addDoc` into `kavithai`, then `updateDoc` of the author's `postCount`;
`addResult` and `updateResult` are their outcomes, carrying the vendor
error message on failure.  If `addDoc` fails nothing is persisted and
`updateDoc` is never attempted; if `addDoc` commits and the follow-up
`updateDoc` fails, the kavithai document remains persisted while
`postCount` is unchanged.  Either failure reaches the catch handler,
which shows the toast computed by `saveErrorMessage`. -/
def saveKavithaiToFirestore (user : Option String) (status : String)
    (addResult updateResult : Except String Unit) (s : ContentDb) :
    Outcome ContentDb :=
  match user with
  | none => ⟨s, [], some saveLoginMsg⟩
  | some uid =>
    match addResult with
    | .error msg => ⟨s, [.addTo "kavithai"], some (saveErrorMessage msg)⟩
    | .ok _ =>
      match updateResult with
      | .error msg =>
        ⟨{ s with kavithaiCount := s.kavithaiCount + 1 },
         [.addTo "kavithai", .writeDoc "users" uid],
         some (saveErrorMessage msg)⟩
      | .ok _ =>
        ⟨⟨s.kavithaiCount + 1, s.postCount + 1⟩,
         [.addTo "kavithai", .writeDoc "users" uid],
         some (saveOkMsg status)⟩

/-! ### chat.js: message listener and composite ids -/

/-- A change event delivered to the `onSnapshot` listener of `loadChat`. -/
inductive ChangeType where
  | added
  | modified
  | removed
deriving DecidableEq

/-- One entry of `snapshot.docChanges()`. -/
structure DocChange where
  type : ChangeType
  msg : String
deriving DecidableEq

/-- The listener clears the message area when it still shows the loading
placeholder: `if (messageArea.innerHTML.includes('spinner'))`. -/
def clearIfLoading (area : List String) : List String :=
  if area.any (fun h => strIncludes h "spinner") then [] else area

/-- One `forEach` step of the message listener: `displayMessage` appends
the changed document to the message area when the change type is
`"added"`; other change types are ignored. -/
def appendIfAdded (acc : List String) (c : DocChange) : List String :=
  match c.type with
  | .added => acc ++ [c.msg]
  | _ => acc

/-- The message carried by a change of type `added`, `none` otherwise. -/
def addedMsg (c : DocChange) : Option String :=
  match c.type with
  | .added => some c.msg
  | _ => none

/-- The body of the message listener installed by `loadChat`
(`src/chat.js` lines 80-95): clear the loading placeholder, then
`snapshot.docChanges().reverse().forEach`, appending each change of type
`added` to the message area. -/
def onMessagesSnapshot (changes : List DocChange) (area : List String) :
    List String :=
  changes.reverse.foldl appendIfAdded (clearIfLoading area)

/-- The chat id computed by `loadChat` (`src/chat.js` lines 66-68). -/
def loadChatChatId (currentUid partnerId : String) : String :=
  if currentUid < partnerId then currentUid ++ "_" ++ partnerId
  else partnerId ++ "_" ++ currentUid

/-- The chat id computed by `sendMessage` (`src/chat.js` lines 111-113). -/
def sendMessageChatId (currentUid partnerId : String) : String :=
  if currentUid < partnerId then currentUid ++ "_" ++ partnerId
  else partnerId ++ "_" ++ currentUid

/-- The typing-status document id computed by `sendTypingIndicator`
(`src/chat.js` lines 176-178). -/
def sendTypingIndicatorDocId (currentUid partnerId : String) : String :=
  if currentUid < partnerId then currentUid ++ "_" ++ partnerId
  else partnerId ++ "_" ++ currentUid

/-- The typing-status document id computed by `setupTypingListener`
(`src/chat.js` lines 202-204). -/
def setupTypingListenerDocId (currentUid partnerId : String) : String :=
  if currentUid < partnerId then currentUid ++ "_" ++ partnerId
  else partnerId ++ "_" ++ currentUid

/-! ## Helper lemmas -/

/-- `jsDiv` with a nonzero divisor is the exact quotient. -/
theorem jsDiv_of_ne_zero (a b : ℚ) (h : b ≠ 0) : jsDiv a b = .num (a / b) := by
  simp [jsDiv, h]

/-- The guarded average computation satisfies the spec's invariant. -/
theorem avgInvariant_guarded (nS nT : ℚ) :
    avgInvariant ⟨nS, nT, if 0 < nT then .num (nS / nT) else .num 0⟩ := by
  refine ⟨fun h => if_pos h, fun h => if_neg ?_⟩
  rw [show nT = 0 from h]
  exact lt_irrefl 0

/-- In the first `comments.js` revision, once both documents were read
successfully the transaction body raises `ReferenceError`: each branch
starts by assigning the undeclared `newSumRatings`. -/
theorem txnV1_refError (v : ℚ) (db : RateDb) (p : PoemFields) (r : ℚ)
    (hp : db.poem = some p) (hr : db.userRating = some r) :
    ratePoemTxnV1 v db = .error .refError := by
  by_cases h : r = v <;>
    simp [ratePoemTxnV1, hp, hr, h, strictAssign, lookupVar]

/-- Same for the `part_000` revision. -/
theorem txnP0_refError (v : ℚ) (db : RateDb) (p : PoemFields) (r : ℚ)
    (hp : db.poem = some p) (hr : db.userRating = some r) :
    ratePoemTxnP0 v db = .error .refError := by
  by_cases h : r = v <;>
    simp [ratePoemTxnP0, hp, hr, h, strictAssign, lookupVar]

/-- The first `comments.js` revision's rating transaction never commits:
every path raises an error. -/
theorem txnV1_never_ok (v : ℚ) (db db' : RateDb) :
    ratePoemTxnV1 v db ≠ .ok db' := by
  cases hpoem : db.poem with
  | none => simp [ratePoemTxnV1, hpoem]
  | some p =>
    cases hrate : db.userRating with
    | none => simp [ratePoemTxnV1, hpoem, hrate]
    | some r => simp [txnV1_refError v db p r hpoem hrate]

/-- Evaluation of the `part_001` transaction on the unvote branch. -/
theorem txnP1_unvote (v : ℚ) (db : RateDb) (p : PoemFields)
    (hp : db.poem = some p) (hr : db.userRating = some v) :
    ratePoemTxnP1 v db =
      .ok ⟨some ⟨p.sumRatings - v, p.totalRatings - 1,
        if 0 < p.totalRatings - 1 then
          .num ((p.sumRatings - v) / (p.totalRatings - 1))
        else .num 0⟩, none⟩ := by
  simp [ratePoemTxnP1, hp, hr]

/-- Evaluation of the `part_001` transaction on the change branch for a
previously rated poem. -/
theorem txnP1_change (oldR v : ℚ) (db : RateDb) (p : PoemFields)
    (hp : db.poem = some p) (hr : db.userRating = some oldR)
    (hne : oldR ≠ v) (hnz : oldR ≠ 0) :
    ratePoemTxnP1 v db =
      .ok ⟨some ⟨p.sumRatings - oldR + v, p.totalRatings,
        if 0 < p.totalRatings then
          .num ((p.sumRatings - oldR + v) / p.totalRatings)
        else .num 0⟩, some v⟩ := by
  simp [ratePoemTxnP1, hp, hr, hne, hnz]

/-- Evaluation of the second `comments.js` revision's transaction when the
caller already has a nonzero rating. -/
theorem txnV2_change (oldR v : ℚ) (db : RateDb) (p : PoemFields)
    (hp : db.poem = some p) (hr : db.userRating = some oldR)
    (hnz : oldR ≠ 0) :
    ratePoemTxnV2 v db =
      .ok ⟨some ⟨p.sumRatings - oldR + v, p.totalRatings,
        jsDiv (p.sumRatings - oldR + v) p.totalRatings⟩, some v⟩ := by
  simp [ratePoemTxnV2, hp, hr, hnz]

/-- Any committed `part_001` transaction establishes the average-rating
invariant on the written poem document. -/
theorem txnP1_invariant (v : ℚ) (db db' : RateDb) (p' : PoemFields)
    (hok : ratePoemTxnP1 v db = .ok db') (hp' : db'.poem = some p') :
    avgInvariant p' := by
  cases hpoem : db.poem with
  | none => simp [ratePoemTxnP1, hpoem] at hok
  | some p =>
    cases hrate : db.userRating with
    | none => simp [ratePoemTxnP1, hpoem, hrate] at hok
    | some r =>
      by_cases h : r = v
      · subst h
        rw [txnP1_unvote r db p hpoem hrate] at hok
        injection hok with h2
        subst h2
        simp only [RateDb.poem] at hp'
        injection hp' with h3
        subst h3
        exact avgInvariant_guarded _ _
      · by_cases h0 : r = 0
        · subst h0
          simp only [ratePoemTxnP1, hpoem, hrate, if_neg h, if_pos rfl] at hok
          injection hok with h2
          subst h2
          simp only [RateDb.poem] at hp'
          injection hp' with h3
          subst h3
          exact avgInvariant_guarded _ _
        · rw [txnP1_change r v db p hpoem hrate h h0] at hok
          injection hok with h2
          subst h2
          simp only [RateDb.poem] at hp'
          injection hp' with h3
          subst h3
          exact avgInvariant_guarded _ _

/-- Any committed transaction of the second `comments.js` revision whose
written `totalRatings` is positive stores the exact quotient. -/
theorem txnV2_pos (v : ℚ) (db db2 : RateDb) (p2 : PoemFields)
    (hok : ratePoemTxnV2 v db = .ok db2) (hp2 : db2.poem = some p2)
    (hpos : 0 < p2.totalRatings) :
    p2.averageRating = .num (p2.sumRatings / p2.totalRatings) := by
  cases hpoem : db.poem with
  | none => simp [ratePoemTxnV2, hpoem] at hok
  | some p =>
    cases hrate : db.userRating with
    | none => simp [ratePoemTxnV2, hpoem, hrate] at hok
    | some r =>
      simp only [ratePoemTxnV2, hpoem, hrate] at hok
      injection hok with h2
      subst h2
      simp only [RateDb.poem] at hp2
      injection hp2 with h3
      subst h3
      exact jsDiv_of_ne_zero _ _ (ne_of_gt hpos)

/-! ## Claims -/

/-- Claim C2: in the rating-transaction logic of the first
`src/comments.js` revision and of `src/unnamed/part_000`, the transaction
body assigns to the undeclared identifiers `newSumRatings` and
`newTotalRatings`; under strict-mode ES-module semantics every execution
of the transaction body that reaches either branch (both documents read,
so the poem exists and the caller's rating document exists) raises an
error (`ReferenceError`), and the aborted transaction leaves the poem
document unchanged. -/
theorem claimC2 (v : ℚ) (uid poemId : String) (db : RateDb)
    (p : PoemFields) (r : ℚ)
    (hp : db.poem = some p) (hr : db.userRating = some r) :
    ratePoemTxnV1 v db = .error .refError ∧
    ratePoemTxnP0 v db = .error .refError ∧
    (ratePoemV1 (some uid) v poemId db).state = db := by
  refine ⟨txnV1_refError v db p r hp hr, txnP0_refError v db p r hp hr, ?_⟩
  simp [ratePoemV1, txnV1_refError v db p r hp hr]

/-- Witness for claim C2 at a concrete state. -/
theorem claimC2_witness :
    ratePoemTxnV1 2 ⟨some ⟨7, 2, .num 0⟩, some 3⟩ = .error .refError ∧
    ratePoemTxnP0 2 ⟨some ⟨7, 2, .num 0⟩, some 3⟩ = .error .refError ∧
    (ratePoemV1 (some "u1") 2 "p1" ⟨some ⟨7, 2, .num 0⟩, some 3⟩).state
      = ⟨some ⟨7, 2, .num 0⟩, some 3⟩ :=
  claimC2 2 "u1" "p1" _ ⟨7, 2, .num 0⟩ 3 rfl rfl

/-- Claim C1 as stated is false on the second `src/comments.js` revision:
starting from a poem with `totalRatings = 0` and an existing rating
document with value 2, `ratePoem(5)` commits and stores
`averageRating = Infinity` (the JavaScript quotient `3 / 0`) while
`totalRatings` is 0, not the default 0. -/
theorem claimC1_cex :
    ¬ (∀ (v : ℚ) (db db' : RateDb) (p' : PoemFields),
        ratePoemTxnV2 v db = .ok db' → db'.poem = some p' →
        avgInvariant p') := by
  intro h
  have h1 : ratePoemTxnV2 5 ⟨some ⟨0, 0, .num 0⟩, some 2⟩ =
      .ok ⟨some ⟨3, 0, .inf⟩, some 5⟩ := by
    norm_num [ratePoemTxnV2, jsDiv]
  have h2 := h 5 ⟨some ⟨0, 0, .num 0⟩, some 2⟩ ⟨some ⟨3, 0, .inf⟩, some 5⟩
    ⟨3, 0, .inf⟩ h1 rfl
  exact absurd (h2.2 rfl) (by decide)

/-- Claim C1 (amended): after any completed `ratePoem` transaction of the
`part_001` revision the stored `averageRating` equals
`sumRatings / totalRatings` when `totalRatings > 0` and the default 0
when `totalRatings = 0`; the first `src/comments.js` revision's
transaction never completes; the second revision guarantees the quotient
only when the stored `totalRatings` is positive (when it is 0 the stored
average is the JavaScript quotient `sumRatings / 0`, not 0). -/
theorem claimC1 (v : ℚ) (db db' : RateDb) (p' : PoemFields)
    (hok : ratePoemTxnP1 v db = .ok db') (hp' : db'.poem = some p') :
    avgInvariant p' ∧
    (∀ db2, ratePoemTxnV1 v db ≠ .ok db2) ∧
    (∀ db2 p2, ratePoemTxnV2 v db = .ok db2 → db2.poem = some p2 →
      0 < p2.totalRatings →
      p2.averageRating = .num (p2.sumRatings / p2.totalRatings)) :=
  ⟨txnP1_invariant v db db' p' hok hp',
   fun db2 => txnV1_never_ok v db db2,
   fun db2 p2 h2 hp2 hpos => txnV2_pos v db db2 p2 h2 hp2 hpos⟩

/-- Witness for claim C1 at a concrete state: a user with an existing
4-star rating resubmits 4 stars, the `part_001` transaction commits and
stores `sumRatings = 0`, `totalRatings = 1`, `averageRating = 0`. -/
theorem claimC1_witness :
    ratePoemTxnP1 4 ⟨some ⟨4, 2, .num 2⟩, some 4⟩ =
      .ok ⟨some ⟨0, 1, .num 0⟩, none⟩ ∧
    avgInvariant ⟨0, 1, .num 0⟩ :=
  have hok : ratePoemTxnP1 4 ⟨some ⟨4, 2, .num 2⟩, some 4⟩ =
      .ok ⟨some ⟨0, 1, .num 0⟩, none⟩ := by
    norm_num [ratePoemTxnP1]
  ⟨hok, (claimC1 4 ⟨some ⟨4, 2, .num 2⟩, some 4⟩ ⟨some ⟨0, 1, .num 0⟩, none⟩
    ⟨0, 1, .num 0⟩ hok rfl).1⟩

/-- Claim C3 as stated is false on the second `src/comments.js` revision:
resubmitting the same value does not delete the ratings document there
(that revision has no unvote branch); at a concrete state with an
existing rating of 4, `ratePoem(4)` re-writes the rating document and
leaves `totalRatings` and `sumRatings` unchanged. -/
theorem claimC3_cex :
    ¬ (∀ (v : ℚ) (db db' : RateDb) (p p' : PoemFields),
        db.poem = some p → db.userRating = some v →
        ratePoemTxnV2 v db = .ok db' → db'.poem = some p' →
        db'.userRating = none ∧
        p'.totalRatings = p.totalRatings - 1 ∧
        p'.sumRatings = p.sumRatings - v) := by
  intro h
  have h1 : ratePoemTxnV2 4 ⟨some ⟨10, 3, .num 0⟩, some 4⟩ =
      .ok ⟨some ⟨10, 3, .num (10 / 3)⟩, some 4⟩ := by
    norm_num [ratePoemTxnV2, jsDiv]
  have h2 := h 4 ⟨some ⟨10, 3, .num 0⟩, some 4⟩
    ⟨some ⟨10, 3, .num (10 / 3)⟩, some 4⟩ ⟨10, 3, .num 0⟩
    ⟨10, 3, .num (10 / 3)⟩ rfl rfl h1 rfl
  exact Option.noConfusion h2.1

/-- Claim C3 (amended): in the `part_001` revision, resubmitting the
currently stored value `v` deletes the ratings document, decrements
`totalRatings` by 1 and decreases `sumRatings` by `v`; in the second
`src/comments.js` revision the same call (for `v ≠ 0`) keeps the ratings
document (re-writing it with rating `v`) and leaves `sumRatings` and
`totalRatings` unchanged. -/
theorem claimC3 (v : ℚ) (db : RateDb) (p : PoemFields)
    (hp : db.poem = some p) (hr : db.userRating = some v) :
    ratePoemTxnP1 v db =
      .ok ⟨some ⟨p.sumRatings - v, p.totalRatings - 1,
        if 0 < p.totalRatings - 1 then
          .num ((p.sumRatings - v) / (p.totalRatings - 1))
        else .num 0⟩, none⟩ ∧
    (v ≠ 0 → ratePoemTxnV2 v db =
      .ok ⟨some ⟨p.sumRatings, p.totalRatings,
        jsDiv p.sumRatings p.totalRatings⟩, some v⟩) := by
  refine ⟨txnP1_unvote v db p hp hr, fun hv => ?_⟩
  rw [txnV2_change v v db p hp hr hv]
  simp [sub_add_cancel]

/-- Witness for claim C3 at a concrete state: existing rating 4,
poem `sumRatings = 10`, `totalRatings = 3`, resubmitting 4. -/
theorem claimC3_witness :
    ratePoemTxnV2 4 ⟨some ⟨10, 3, .num 0⟩, some 4⟩ =
      .ok ⟨some ⟨10, 3, jsDiv 10 3⟩, some 4⟩ ∧
    ratePoemTxnP1 4 ⟨some ⟨10, 3, .num 0⟩, some 4⟩ =
      .ok ⟨some ⟨10 - 4, 3 - 1,
        if 0 < (3:ℚ) - 1 then .num ((10 - 4) / (3 - 1)) else .num 0⟩,
        none⟩ :=
  ⟨(claimC3 4 ⟨some ⟨10, 3, .num 0⟩, some 4⟩ ⟨10, 3, .num 0⟩ rfl rfl).2
     (by norm_num),
   (claimC3 4 ⟨some ⟨10, 3, .num 0⟩, some 4⟩ ⟨10, 3, .num 0⟩ rfl rfl).1⟩

/-- Claim C4 as stated is false on the first `src/comments.js` revision:
its transaction always aborts (undeclared `newSumRatings`), so calling
`ratePoem(5)` with a prior rating of 2 never sets the ratings document to
the new value. -/
theorem claimC4_cex :
    ¬ (∀ (oldR newR : ℚ) (db : RateDb) (p : PoemFields),
        db.poem = some p → db.userRating = some oldR →
        oldR ≠ newR → 0 < oldR →
        ∃ db', ratePoemTxnV1 newR db = .ok db' ∧
          db'.userRating = some newR) := by
  intro h
  obtain ⟨db', h1, -⟩ := h 2 5 ⟨some ⟨2, 1, .num 2⟩, some 2⟩ ⟨2, 1, .num 2⟩
    rfl rfl (by norm_num) (by norm_num)
  exact txnV1_never_ok 5 _ db' h1

/-- Claim C4 (amended): in the `part_001` and second `src/comments.js`
revisions, rating `newR` after a prior rating `oldR` (`oldR ≠ newR`,
`oldR > 0`) sets the ratings document to `newR`, sets `sumRatings` to
`sumRatings - oldR + newR` and leaves `totalRatings` unchanged; the first
`src/comments.js` revision's transaction aborts and leaves the database
unchanged. -/
theorem claimC4 (oldR newR : ℚ) (uid poemId : String) (db : RateDb)
    (p : PoemFields) (hp : db.poem = some p)
    (hr : db.userRating = some oldR) (hne : oldR ≠ newR)
    (hpos : 0 < oldR) :
    ratePoemTxnP1 newR db =
      .ok ⟨some ⟨p.sumRatings - oldR + newR, p.totalRatings,
        if 0 < p.totalRatings then
          .num ((p.sumRatings - oldR + newR) / p.totalRatings)
        else .num 0⟩, some newR⟩ ∧
    ratePoemTxnV2 newR db =
      .ok ⟨some ⟨p.sumRatings - oldR + newR, p.totalRatings,
        jsDiv (p.sumRatings - oldR + newR) p.totalRatings⟩, some newR⟩ ∧
    (ratePoemV1 (some uid) newR poemId db).state = db := by
  have hnz : oldR ≠ 0 := ne_of_gt hpos
  refine ⟨txnP1_change oldR newR db p hp hr hne hnz,
          txnV2_change oldR newR db p hp hr hnz, ?_⟩
  simp [ratePoemV1, txnV1_refError newR db p oldR hp hr]

/-- Witness for claim C4 at a concrete state: prior rating 2, new rating
5, poem `sumRatings = 2`, `totalRatings = 1`. -/
theorem claimC4_witness :
    ratePoemTxnP1 5 ⟨some ⟨2, 1, .num 2⟩, some 2⟩ =
      .ok ⟨some ⟨2 - 2 + 5, 1,
        if 0 < (1:ℚ) then .num ((2 - 2 + 5) / 1) else .num 0⟩, some 5⟩ ∧
    ratePoemTxnV2 5 ⟨some ⟨2, 1, .num 2⟩, some 2⟩ =
      .ok ⟨some ⟨2 - 2 + 5, 1, jsDiv (2 - 2 + 5) 1⟩, some 5⟩ ∧
    (ratePoemV1 (some "u1") 5 "p1" ⟨some ⟨2, 1, .num 2⟩, some 2⟩).state
      = ⟨some ⟨2, 1, .num 2⟩, some 2⟩ :=
  claimC4 2 5 "u1" "p1" ⟨some ⟨2, 1, .num 2⟩, some 2⟩ ⟨2, 1, .num 2⟩
    rfl rfl (by norm_num) (by norm_num)

/-- `updateDoc` is not among the names imported by any `comments.js`
revision, so referencing it raises `ReferenceError`. -/
theorem updateDoc_unresolved_comments :
    resolveName commentsJsImports "updateDoc" = .error .refError := rfl

/-- `updateDoc` is not among the names imported by `community.js`. -/
theorem updateDoc_unresolved_community :
    resolveName communityJsImports "updateDoc" = .error .refError := rfl

/-- Claim C5: the reaction toggle is idempotent per (user, poem, type):
two consecutive `handleReaction` calls by the same signed-in user return
the reaction document's presence and the poem's `likes` counter to their
original state, with the counter net unchanged — in the first
`src/comments.js` revision because the document presence toggles while
the counter update always fails (`updateDoc` unimported), and in the
`part_000` revision because the whole handler fails before any write. -/
theorem claimC5 (uid reactionType poemId : String) (s : ReactionState) :
    (handleReactionV1 (some uid) reactionType poemId
      (handleReactionV1 (some uid) reactionType poemId s).state).state = s ∧
    (handleReactionP0 (some uid) reactionType poemId
      (handleReactionP0 (some uid) reactionType poemId s).state).state
      = s := by
  constructor
  · cases s with
    | mk hasR likes =>
      cases hasR <;>
        simp [handleReactionV1, updateDoc_unresolved_comments]
  · cases s with
    | mk hasR likes =>
      cases hasR <;>
        simp [handleReactionP0, updateDoc_unresolved_comments]

/-- Claim C6: the code never increments the author's `commentCount`.
A successful `postComment` call (signed-in user, non-empty trimmed text)
appends the comment and reports success, but leaves the user's
`commentCount` unchanged: `incrementCommentCount` exists in
`src/gamification.js` but no code in the repository calls it, although
its own comment says it is used by `comments.js` after a comment is
posted. -/
theorem claimC6 (uid poemId commentText : String) (s : CommentsDb)
    (h : jsTrim commentText ≠ "") :
    (postComment (some uid) poemId commentText s).state.comments
      = s.comments ++ [⟨poemId, uid, jsTrim commentText⟩] ∧
    (postComment (some uid) poemId commentText s).toast
      = some commentOkMsg ∧
    (postComment (some uid) poemId commentText s).state.commentCount
      = s.commentCount := by
  simp [postComment, h]

/-- Witness for claim C6 at a concrete successful call. -/
theorem claimC6_witness :
    (postComment (some "u1") "p1" "hi" ⟨[], 0⟩).state.comments
      = [] ++ [⟨"p1", "u1", jsTrim "hi"⟩] ∧
    (postComment (some "u1") "p1" "hi" ⟨[], 0⟩).toast
      = some commentOkMsg ∧
    (postComment (some "u1") "p1" "hi" ⟨[], 0⟩).state.commentCount = 0 :=
  claimC6 "u1" "p1" "hi" ⟨[], 0⟩ (by decide)

/-- `(a ++ b).data = a.data ++ b.data`. -/
theorem strData_append (a b : String) : (a ++ b).data = a.data ++ b.data :=
  rfl

/-- The generic save-error toast never coincides with the dedicated
permission-denied toast (their first characters differ). -/
theorem generic_ne_perm (x : String) :
    "சேமிப்பில் பிழை: " ++ x ++ "..." ≠ permissionDeniedMsg := by
  intro h
  have hd := congrArg String.data h
  rw [strData_append, strData_append] at hd
  obtain ⟨t, ht⟩ : ∃ t, ("சேமிப்பில் பிழை: " : String).data = 'ச' :: t :=
    ⟨_, rfl⟩
  rw [ht, List.cons_append] at hd
  have hh := congrArg List.head? hd
  have hp : permissionDeniedMsg.data.head? = some '🚫' := rfl
  rw [hp] at hh
  simp only [List.head?] at hh
  exact absurd (Option.some.inj hh) (by decide)

/-- Claim C7: every failed database write in `saveKavithaiToFirestore`
is caught at the call site and surfaced as the toast computed by
`saveErrorMessage`: when `addDoc` itself fails nothing is persisted,
and when `addDoc` commits but the follow-up `postCount` update fails the
kavithai document stays persisted while `postCount` is unchanged; in
both cases the toast is the dedicated friendlier permission message
exactly when the error message contains the substring
`permission denied`. -/
theorem claimC7 (uid status msg : String) (upd : Except String Unit)
    (s : ContentDb) :
    (saveKavithaiToFirestore (some uid) status (.error msg) upd s).toast
      = some (saveErrorMessage msg) ∧
    (saveKavithaiToFirestore (some uid) status (.error msg) upd s).state
      = s ∧
    (saveKavithaiToFirestore (some uid) status (.ok ()) (.error msg)
      s).toast = some (saveErrorMessage msg) ∧
    (saveKavithaiToFirestore (some uid) status (.ok ()) (.error msg)
      s).state = ⟨s.kavithaiCount + 1, s.postCount⟩ ∧
    (saveErrorMessage msg = permissionDeniedMsg ↔
      strIncludes msg "permission denied" = true) := by
  refine ⟨rfl, rfl, rfl, rfl, ?_, fun h => ?_⟩
  · intro heq
    by_cases h1 : strIncludes msg "permission denied" = true
    · exact h1
    · exfalso
      rw [saveErrorMessage, if_neg h1] at heq
      by_cases h2 : strIncludes msg "Function call failed" = true
      · rw [if_pos h2] at heq
        exact absurd heq (by decide)
      · rw [if_neg h2] at heq
        exact generic_ne_perm (msg.take 50) heq
  · rw [saveErrorMessage, if_pos h]

/-- Claim C8 as stated is false: the listener reverses each snapshot's
`docChanges()` batch before appending, so two added changes delivered as
`[m1, m2]` are appended as `[m2, m1]`, not in delivery order. -/
theorem claimC8_cex :
    ¬ (∀ (changes : List DocChange) (area : List String),
        onMessagesSnapshot changes area =
          clearIfLoading area ++ changes.filterMap addedMsg) := by
  intro h
  have h1 := h [⟨.added, "m1"⟩, ⟨.added, "m2"⟩] []
  exact absurd h1 (by decide)

/-- Helper: folding `appendIfAdded` appends exactly the added messages,
in fold order, after the initial accumulator. -/
theorem foldl_appendIfAdded (l : List DocChange) (acc : List String) :
    l.foldl appendIfAdded acc = acc ++ l.filterMap addedMsg := by
  induction l generalizing acc with
  | nil => simp
  | cons c t ih =>
    simp only [List.foldl_cons, List.filterMap_cons, ih]
    cases hc : c.type <;> simp [appendIfAdded, addedMsg, hc]

/-- Claim C8 (amended): for every snapshot, the listener first clears the
loading placeholder if present, then appends exactly the added changes'
messages — in the reverse of the order in which the changes appear in the
snapshot's `docChanges()` list (the code reverses the batch before
appending); previously displayed messages are preserved as a prefix and
are not reordered. -/
theorem claimC8 (changes : List DocChange) (area : List String) :
    onMessagesSnapshot changes area =
      clearIfLoading area ++ changes.reverse.filterMap addedMsg :=
  foldl_appendIfAdded changes.reverse (clearIfLoading area)

/-- Claim C9: every mutating public operation called while
`auth.currentUser` is null returns after showing its sign-in toast,
issuing no database read or write and leaving all durable state
unchanged. -/
theorem claimC9
    (status poemId commentText reactionType targetUserId
      targetUserName : String)
    (v : ℚ) (addResult updateResult : Except String Unit)
    (sC : ContentDb) (sM : CommentsDb) (db : RateDb) (sR : ReactionState)
    (sB : BookmarkState) (sF : FollowState) :
    saveKavithaiToFirestore none status addResult updateResult sC
      = ⟨sC, [], some saveLoginMsg⟩ ∧
    postComment none poemId commentText sM
      = ⟨sM, [], some commentLoginMsg⟩ ∧
    ratePoemV1 none v poemId db = ⟨db, [], some rateLoginMsg⟩ ∧
    ratePoemP1 none v poemId db = ⟨db, [], some rateLoginMsg⟩ ∧
    handleReactionV1 none reactionType poemId sR
      = ⟨sR, [], some reactionLoginMsg⟩ ∧
    handleReactionP0 none reactionType poemId sR
      = ⟨sR, [], some reactionLoginMsg⟩ ∧
    toggleBookmarkV1 none poemId sB = ⟨sB, [], some bookmarkLoginMsg⟩ ∧
    toggleFollow none targetUserId targetUserName sF
      = ⟨sF, [], some followLoginMsg⟩ :=
  ⟨rfl, rfl, rfl, rfl, rfl, rfl, rfl, rfl⟩

/-- The composite-id formula shared by the four chat functions is
symmetric in its two arguments when they differ. -/
theorem compositeId_symm (a b : String) (h : a ≠ b) :
    (if a < b then a ++ "_" ++ b else b ++ "_" ++ a)
      = (if b < a then b ++ "_" ++ a else a ++ "_" ++ b) := by
  rcases lt_trichotomy a b with hlt | heq | hgt
  · rw [if_pos hlt, if_neg (asymm hlt)]
  · exact absurd heq h
  · rw [if_neg (asymm hgt), if_pos hgt]

/-- Claim C10: for distinct user ids the chat id and typing-status
document id computed by `loadChat`, `sendMessage`, `sendTypingIndicator`
and `setupTypingListener` are symmetric: both participants address the
same messages query and the same typing-status document. -/
theorem claimC10 (a b : String) (h : a ≠ b) :
    loadChatChatId a b = loadChatChatId b a ∧
    sendMessageChatId a b = sendMessageChatId b a ∧
    sendTypingIndicatorDocId a b = sendTypingIndicatorDocId b a ∧
    setupTypingListenerDocId a b = setupTypingListenerDocId b a :=
  ⟨compositeId_symm a b h, compositeId_symm a b h,
   compositeId_symm a b h, compositeId_symm a b h⟩

/-- Witness for claim C10 at concrete distinct user ids. -/
theorem claimC10_witness :
    loadChatChatId "alice" "bob" = loadChatChatId "bob" "alice" ∧
    sendMessageChatId "alice" "bob" = sendMessageChatId "bob" "alice" ∧
    sendTypingIndicatorDocId "alice" "bob"
      = sendTypingIndicatorDocId "bob" "alice" ∧
    setupTypingListenerDocId "alice" "bob"
      = setupTypingListenerDocId "bob" "alice" :=
  claimC10 "alice" "bob" (by decide)

end Naankavithai
